import Mathlib

/-!
Shallow embedding of `TheRightmoveScraper` (file `TheRightmoveScraper.py`):
a scraper that validates a Rightmove search URL, computes a page count from
the displayed result count, extracts per-page field lists, optionally
enriches listings with floorplan links, and aggregates prices.

Conventions of the embedding:
* HTTP responses and the structural (XPath) query results are modelled as
  explicit inputs: `HttpOutcome` is what one `requests.get` call does, and
  `PageExtract` holds the text/attribute lists the five XPath queries return
  on a parsed page tree.
* `np.nan` (the missing-value marker) is `Option.none`; pandas DataFrames
  of listings become lists of `Listing`; the generic result table used by
  the aggregator becomes `DataFrame` (column names plus rows mapping column
  names to optional cells).
* Python exceptions that a function can raise are `Except` errors;
  `ValueError` raised by `_validate_url` / `rent_or_sale` and by `summary`
  is `ValidationError` / `SchemaError` respectively (the spec's names).
* Prices are modelled as rationals (`ℚ`), exact stand-ins for floats.
-/

namespace RightmoveScraper

set_option maxRecDepth 400000

/-- Response body bytes (`response.content`). -/
abbrev Body := List Char

/-- One HTTP response: status code and content. -/
structure HttpResponse where
  status : ℕ
  body : Body
deriving DecidableEq

/-- What a single `requests.get` call does: either it yields a response or
it raises a `requests.RequestException` (connection error, timeout,
too-many-redirects, ...). -/
inductive HttpOutcome where
  | response (r : HttpResponse)
  | exn
deriving DecidableEq

/-- `response.raise_for_status()` raises `requests.HTTPError` (a
`RequestException`) exactly for client errors (4xx) and server errors
(5xx), i.e. for `400 ≤ status < 600`. -/
def raiseForStatus (status : ℕ) : Bool :=
  decide (400 ≤ status ∧ status < 600)

/-- `TheRightmoveScraper._request`: perform the GET, call
`raise_for_status`, and return `(status_code, content)`; any
`requests.RequestException` is caught, logged, and turned into
`(None, None)`. -/
def _request (o : HttpOutcome) : Option ℕ × Option Body :=
  match o with
  | .exn => (none, none)
  | .response r =>
      if raiseForStatus r.status then (none, none)
      else (some r.status, some r.body)

/-- The user-facing `ValueError` of `_validate_url` / `rent_or_sale`
(the spec's `ValidationError`). -/
inductive ValidationError where
  | validationError
deriving DecidableEq

/-- `sub in s` for Python strings: `sub` occurs contiguously in `s`. -/
def strContains (s sub : String) : Bool :=
  decide (sub.data <:+: s.data)

/-- `re.match(pattern, s)` for the anchored literal patterns used by
`_validate_url`: the pattern text must occur at the start of `s`. -/
def strStartsWith (s pat : String) : Bool :=
  decide (pat.data <+: s.data)

/-- The five path segments of the accepted search-URL regexes in
`_validate_url` (each regex is
`https?://www\.rightmove\.co\.uk/<segment>/find\.html\?`). -/
def patternSegments : List String :=
  ["property-for-sale", "property-to-rent", "new-homes-for-sale",
   "commercial-property-for-sale", "commercial-property-to-let"]

/-- A URL matches the accepted regex with path segment `seg`:
`re.match` anchors at the start and `https?` allows both schemes. -/
def matchesSegment (seg url : String) : Bool :=
  strStartsWith url ("http://www.rightmove.co.uk/" ++ seg ++ "/find.html?") ||
  strStartsWith url ("https://www.rightmove.co.uk/" ++ seg ++ "/find.html?")

/-- `any(re.match(pattern, self.url) for pattern in url_patterns)`. -/
def matchesAnyPattern (url : String) : Bool :=
  patternSegments.any (fun seg => matchesSegment seg url)

/-- `TheRightmoveScraper._validate_url`: raise unless the stored status
code is 200 and the URL matches one of the five accepted patterns. -/
def _validate_url (statusCode : Option ℕ) (url : String) :
    Except ValidationError Unit :=
  if statusCode ≠ some 200 then .error .validationError
  else if matchesAnyPattern url then .ok () else .error .validationError

/-- `TheRightmoveScraper.__init__` (also `refresh_data`): request the
first page, validate, and only then build the result table.  The
construction of the table itself (`_get_results`) is outside the excerpt,
so the would-be table is a parameter: on validation failure it is never
produced. -/
def scraper_init {α : Type} (o : HttpOutcome) (url : String) (results : α) :
    Except ValidationError α :=
  let (statusCode, _firstPage) := _request o
  match _validate_url statusCode url with
  | .error e => .error e
  | .ok _ => .ok results

/-- `TheRightmoveScraper.rent_or_sale`: classify the search category by
substring tests on the URL, in this branch order. -/
def rent_or_sale (url : String) : Except ValidationError String :=
  if strContains url "/property-for-sale/" || strContains url "/new-homes-for-sale/" then
    .ok "sale"
  else if strContains url "/property-to-rent/" then
    .ok "rent"
  else if strContains url "/commercial-property-for-sale/" then
    .ok "sale-commercial"
  else if strContains url "/commercial-property-to-let/" then
    .ok "rent-commercial"
  else
    .error .validationError

/-- `TheRightmoveScraper.results_count_display`: the xpath
`//span[@class='searchHeader-resultCount']/text()` returns a list of
texts; the first one, with commas removed, is parsed with `int`; an empty
result list yields 0.  The numeric parsing is done, so the input here is
the already-parsed list of numbers. -/
def results_count_display (xpathResult : List ℕ) : ℕ :=
  match xpathResult with
  | [] => 0
  | n :: _ => n

/-- `TheRightmoveScraper.page_count`: `count // 24`, plus one when
`count % 24 > 0`, capped at 42. -/
def page_count (count : ℕ) : ℕ :=
  let pc := count / 24
  let pc := if count % 24 > 0 then pc + 1 else pc
  min pc 42

/-- Results of the five structural (XPath) queries `_get_page` runs on a
parsed page tree, in document order: price texts, title texts, address
texts, raw listing hrefs and raw agent hrefs.  (Whether the rental or the
sale price XPath variant is selected only changes which query produced
`prices`, not the shape of the data.) -/
structure PageExtract where
  prices : List String
  titles : List String
  addresses : List String
  weblinks : List String
  agent_links : List String
deriving DecidableEq

/-- The per-URL collaborators `_get_floorplan_url` uses: the network
behaviour of `requests.get` for each URL, `lxml.html.fromstring` (which
can raise on bad input), and the floorplan XPath
`//*[@id="floorplanTabs"]//img/@src` on the parsed tree. -/
structure ScrapeEnv (Tree : Type) where
  outcome : String → HttpOutcome
  fromstring : Body → Except Unit Tree
  floorplanSrcs : Tree → List String

/-- Python truthiness of the optional body: `not content` is true for
`None` and for the empty byte string. -/
def truthy : Option Body → Bool
  | none => false
  | some b => !b.isEmpty

/-- `TheRightmoveScraper._get_floorplan_url`: fetch the listing page,
return missing on non-200 status or falsy content, otherwise parse and
return the first floorplan image reference (or missing if none).  The
whole body is wrapped in `try/except Exception`, so a parse error also
becomes missing. -/
def _get_floorplan_url {T : Type} (env : ScrapeEnv T) (weblink : String) :
    Option String :=
  let status_code := (_request (env.outcome weblink)).1
  let content := (_request (env.outcome weblink)).2
  if status_code ≠ some 200 ∨ truthy content = false then none
  else
    match content with
    | none => none    -- unreachable: `truthy content` forces `some`
    | some b =>
      match env.fromstring b with
      | .error _ => none    -- exception caught, logged, missing result
      | .ok tree => (env.floorplanSrcs tree).head?

/-- `TheRightmoveScraper._fetch_floorplans`:
`ThreadPoolExecutor(max_workers=10).map` is an order-preserving map whose
pool is joined before the call returns, and the tasks share no mutable
state, so its result is the sequential map. -/
def _fetch_floorplans {T : Type} (env : ScrapeEnv T) (weblinks : List String) :
    List (Option String) :=
  weblinks.map (_get_floorplan_url env)

/-- A per-URL failure during floorplan lookup: the fetch did not yield
status 200 (exception at fetch time, or a 4xx/5xx response), or the
content is falsy (missing or empty), or the HTML parse raises. -/
def per_url_failure {T : Type} (env : ScrapeEnv T) (u : String) : Prop :=
  (_request (env.outcome u)).1 ≠ some 200 ∨
  truthy (_request (env.outcome u)).2 = false ∨
  (∃ b, (_request (env.outcome u)).2 = some b ∧ env.fromstring b = .error ())

/-- One row of the listing table `_get_page` builds: the six columns, each
cell either a value or the missing marker. -/
structure Listing where
  price : Option String
  type : Option String
  address : Option String
  url : Option String
  agent_url : Option String
  floorplan_url : Option String
deriving DecidableEq

/-- `base = "https://www.rightmove.co.uk"`. -/
def base : String := "https://www.rightmove.co.uk"

/-- `f"{base}{link}"` applied to each raw href. -/
def resolve (links : List String) : List String :=
  links.map (fun l => base ++ l)

/-- `[np.nan] * n` padding: extend a column to length `n` with the missing
marker (for `n` below the current length, Python appends nothing, exactly
like truncated subtraction). -/
def pad (col : List (Option String)) (n : ℕ) : List (Option String) :=
  col ++ List.replicate (n - col.length) none

/-- `max(len(prices), len(titles), len(addresses), len(weblinks),
len(agent_urls))` in `_get_page` (resolving hrefs keeps lengths). -/
def page_max_length (ex : PageExtract) : ℕ :=
  max (max (max (max ex.prices.length ex.titles.length) ex.addresses.length)
    (resolve ex.weblinks).length) (resolve ex.agent_links).length

/-- The six equal-length columns of the `data` dict in `_get_page`, after
padding each field list to the common maximum length. -/
structure PageColumns where
  price : List (Option String)
  type : List (Option String)
  address : List (Option String)
  url : List (Option String)
  agent_url : List (Option String)
  floorplan_url : List (Option String)

/-- Builds the `data` dict of `_get_page`: resolve links, fetch (or stub)
floorplans, and pad every column with the missing marker up to
`page_max_length`. -/
def page_columns {T : Type} (env : ScrapeEnv T) (ex : PageExtract)
    (get_floorplans : Bool) : PageColumns :=
  let weblinks := resolve ex.weblinks
  let agent_urls := resolve ex.agent_links
  let floorplan_urls :=
    if get_floorplans then _fetch_floorplans env weblinks
    else List.replicate weblinks.length (none : Option String)
  let n := page_max_length ex
  { price := pad (ex.prices.map some) n
    type := pad (ex.titles.map some) n
    address := pad (ex.addresses.map some) n
    url := pad (weblinks.map some) n
    agent_url := pad (agent_urls.map some) n
    floorplan_url := pad floorplan_urls n }

/-- `TheRightmoveScraper._get_page`: falsy content yields an empty table;
otherwise the padded columns are zipped into rows
(`pd.DataFrame(data)` requires the equal column lengths proved below) and
rows with a missing address are dropped
(`df.dropna(subset=["address"])`). -/
def _get_page {T : Type} (env : ScrapeEnv T) (content : Option PageExtract)
    (get_floorplans : Bool) : List Listing :=
  match content with
  | none => []
  | some ex =>
    let cols := page_columns env ex get_floorplans
    let rows := (List.range (page_max_length ex)).map (fun i =>
      { price := cols.price.getD i none
        type := cols.type.getD i none
        address := cols.address.getD i none
        url := cols.url.getD i none
        agent_url := cols.agent_url.getD i none
        floorplan_url := cols.floorplan_url.getD i none : Listing })
    rows.filter (fun r => r.address.isSome)

/-- A cell value of the aggregator's result table: numeric or text. -/
inductive Val where
  | num (q : ℚ)
  | str (s : String)
deriving DecidableEq

/-- Numeric reading of a cell, used where pandas sums/averages the
`price` column (the scraper's price cells are numeric; the `str` case is
unreachable there). -/
def Val.toRat : Val → ℚ
  | .num q => q
  | .str _ => 0

/-- `astype(int)`: Python/numpy truncate floats toward zero; on the
scraper's integer-valued bedroom keys this is exact (pandas would raise
on a non-numeric string, so the `str` case is unreachable). -/
def Val.toInt : Val → ℤ
  | .num q => q.num.tdiv q.den
  | .str _ => 0

/-- Comparison pandas uses when sorting group keys ascending (numeric or
lexicographic; a mixed comparison would raise in pandas and is never
exercised). -/
def Val.leB : Val → Val → Bool
  | .num a, .num b => decide (a ≤ b)
  | .str a, .str b => decide (a ≤ b)
  | .num _, .str _ => true
  | .str _, .num _ => false

/-- The aggregator's result table: column names plus rows, each row a map
from column name to an optional cell (`none` = NaN). -/
structure DataFrame where
  columns : List String
  rows : List (String → Option Val)

/-- `TheRightmoveScraper.results_count`: `len(self.get_results)`. -/
def results_count (df : DataFrame) : ℕ :=
  df.rows.length

/-- `TheRightmoveScraper.average_price`:
`self.get_results["price"].dropna().sum()` divided by `results_count`,
except that an empty table returns exactly 0.0. -/
def average_price (df : DataFrame) : ℚ :=
  let total := ((df.rows.filterMap (fun r => r "price")).map Val.toRat).sum
  if results_count df = 0 then 0
  else total / (results_count df : ℚ)

/-- The `ValueError` `summary` raises for an unknown grouping column
(the spec's `SchemaError`). -/
inductive SchemaError where
  | schemaError
deriving DecidableEq

/-- One row of the summary table: the group key (cast to `int` when
grouping by bedroom count), the price count and the price mean. -/
structure GroupRow where
  key : Val
  count : ℕ
  price_mean : ℚ
deriving DecidableEq

/-- `TheRightmoveScraper.summary`.  `if not by:` is taken for `None` and
for the empty string, substituting `"type"` for commercial categories and
`"number_bedrooms"` otherwise; an absent column raises; rows with missing
price are dropped; `groupby` drops rows whose group key is missing and
sorts the group keys ascending; `agg` computes the non-null price count
and mean per group; the `"number_bedrooms"` branch casts keys to `int`
and sorts ascending by key, the other branch sorts descending by count. -/
def summary (df : DataFrame) (rentOrSale : String) (byArg : Option String) :
    Except SchemaError (List GroupRow) :=
  let b := match byArg with
    | none => if strContains rentOrSale "commercial" then "type" else "number_bedrooms"
    | some s =>
        if s = "" then
          (if strContains rentOrSale "commercial" then "type" else "number_bedrooms")
        else s
  if b ∉ df.columns then .error .schemaError
  else
    let rows := df.rows.filter (fun r => (r "price").isSome)
    let keyed := rows.filterMap (fun r => (r b).map (fun k => (k, r)))
    let keys := ((keyed.map Prod.fst).dedup).insertionSort
      (fun k₁ k₂ => Val.leB k₁ k₂ = true)
    let groups := keys.map (fun k =>
      let grpPrices := (keyed.filter (fun p => p.fst = k)).filterMap
        (fun p => p.snd "price")
      { key := k
        count := grpPrices.length
        price_mean := (grpPrices.map Val.toRat).sum / (grpPrices.length : ℚ) : GroupRow })
    if b = "number_bedrooms" then
      .ok ((groups.map (fun g => { g with key := .num ((g.key.toInt : ℤ) : ℚ) })).insertionSort
        (fun g₁ g₂ => g₁.key.toInt ≤ g₂.key.toInt))
    else
      .ok (groups.insertionSort (fun g₁ g₂ => g₂.count ≤ g₁.count))

/-- Decidable equality for `Except`, used to evaluate the embedded
functions on concrete inputs. -/
instance {ε α : Type} [DecidableEq ε] [DecidableEq α] : DecidableEq (Except ε α)
  | .error e₁, .error e₂ => decidable_of_iff (e₁ = e₂) (by simp)
  | .error _, .ok _ => isFalse (by simp)
  | .ok _, .error _ => isFalse (by simp)
  | .ok a₁, .ok a₂ => decidable_of_iff (a₁ = a₂) (by simp)

/-- A network/parse environment for concrete evaluations: every fetch
raises, parsing succeeds trivially, no floorplans are found. -/
def env0 : ScrapeEnv Unit :=
  { outcome := fun _ => .exn
    fromstring := fun _ => .ok ()
    floorplanSrcs := fun _ => [] }

/-- A listing row whose every field is the missing marker. -/
def emptyListing : Listing :=
  ⟨none, none, none, none, none, none⟩

/-- A result-table row with the given price and bedroom count and nothing
else. -/
def exRow (p : ℚ) (k : ℚ) : String → Option Val :=
  fun c => if c = "price" then some (.num p)
    else if c = "number_bedrooms" then some (.num k) else none

/-- Three 2-bedroom listings priced 100, 200 and 300. -/
def exDF : DataFrame :=
  ⟨["price", "number_bedrooms"], [exRow 100 2, exRow 200 2, exRow 300 2]⟩

/-- The empty result table. -/
def exDF0 : DataFrame := ⟨["price"], []⟩

/-- Two rows, one priced 100 and one with a missing price. -/
def exDF2 : DataFrame :=
  ⟨["price"], [fun c => if c = "price" then some (.num 100) else none,
               fun _ => none]⟩

/-- A commercial result table: one row with a price and a type label. -/
def dfType : DataFrame :=
  ⟨["price", "type"],
   [fun c => if c = "price" then some (.num 5)
     else if c = "type" then some (.str "office") else none]⟩

/-- A URL accepted by validation as a commercial-for-sale search whose
query string happens to contain the rental substring. -/
def uMixed : String :=
  "https://www.rightmove.co.uk/commercial-property-for-sale/find.html?keywords=/property-to-rent/"

/-- The `(group key, row)` pairs that `groupby("number_bedrooms")`
aggregates inside `summary`: rows with a missing price are dropped first
(`dropna(subset=["price"])`), then rows with a missing group key are
dropped by `groupby` itself. -/
def bedKeyed (df : DataFrame) : List (Val × (String → Option Val)) :=
  (df.rows.filter (fun r => (r "price").isSome)).filterMap
    (fun r => (r "number_bedrooms").map (fun k => (k, r)))

/-- The row `agg({'price': ['count', 'mean']})` produces for one group
key: the non-null price count and the mean price of that group. -/
def bedGroup (keyed : List (Val × (String → Option Val))) (k : Val) :
    GroupRow :=
  let grpPrices := (keyed.filter (fun p => p.fst = k)).filterMap
    (fun p => p.snd "price")
  ⟨k, grpPrices.length, (grpPrices.map Val.toRat).sum / (grpPrices.length : ℚ)⟩

/-- The table the `"number_bedrooms"` branch of `summary` returns (the
`.ok` payload of `summary df rs (some "number_bedrooms")` whenever the
column exists, proved below). -/
def summaryBedrooms (df : DataFrame) : List GroupRow :=
  let keyed := bedKeyed df
  let keys := ((keyed.map Prod.fst).dedup).insertionSort
    (fun k₁ k₂ => Val.leB k₁ k₂ = true)
  ((keys.map (fun k => bedGroup keyed k)).map
    (fun g => { g with key := .num ((g.key.toInt : ℤ) : ℚ) })).insertionSort
    (fun g₁ g₂ => g₁.key.toInt ≤ g₂.key.toInt)

instance : IsTotal GroupRow (fun g₁ g₂ => g₁.key.toInt ≤ g₂.key.toInt) :=
  ⟨fun a b => Int.le_total a.key.toInt b.key.toInt⟩

instance : IsTrans GroupRow (fun g₁ g₂ => g₁.key.toInt ≤ g₂.key.toInt) :=
  ⟨fun _ _ _ hab hbc => le_trans hab hbc⟩

/-- C1: for every displayed count read from the first page (the xpath hit
list, 0 when empty), the paginator's `page_count` equals
`min(ceil(displayed_count / 24), 42)`; in particular a displayed count of
0 gives 0 pages, 24 gives 1, 25 gives 2, and 2000 gives 42. -/
theorem page_count_is_capped_ceil (xpathResult : List ℕ) :
    page_count (results_count_display xpathResult)
      = min ((results_count_display xpathResult + 23) / 24) 42 ∧
    page_count (results_count_display []) = 0 ∧
    page_count (results_count_display [24]) = 1 ∧
    page_count (results_count_display [25]) = 2 ∧
    page_count (results_count_display [2000]) = 42 := by
  refine ⟨?_, by decide, by decide, by decide, by decide⟩
  simp only [page_count]
  split <;> omega

/-- C3: `average_price` is the sum of the non-missing prices divided by
`results_count` (the full row count, missing prices included), and it is
exactly 0 on an empty result table (a value, not an error and not the
missing marker). -/
theorem average_price_spec (df : DataFrame) :
    (results_count df = 0 → average_price df = 0) ∧
    (results_count df ≠ 0 →
      average_price df
        = ((df.rows.filterMap (fun r => r "price")).map Val.toRat).sum
            / (results_count df : ℚ)) := by
  constructor
  · intro h
    simp [average_price, h]
  · intro h
    simp [average_price, h]

/-- C3 witness: the empty table averages to exactly 0; a table with one
price 100 and one missing price averages 100 / 2 = 50. -/
theorem average_price_spec_witness :
    average_price exDF0 = 0 ∧ average_price exDF2 = 50 := by
  constructor
  · exact (average_price_spec exDF0).1 rfl
  · have h := (average_price_spec exDF2).2 (by decide)
    rw [h]
    norm_num [exDF2, results_count, List.filterMap_cons, Val.toRat]

/-- C4: whenever the first fetch does not store status 200 (including the
missing status a failed fetch leaves) or the URL matches none of the five
accepted search-URL patterns, construction fails with `ValidationError`
and the result table is never produced. -/
theorem init_fails_on_bad_status_or_pattern {α : Type} (o : HttpOutcome)
    (url : String) (results : α)
    (h : (_request o).1 ≠ some 200 ∨ matchesAnyPattern url = false) :
    scraper_init o url results = .error .validationError := by
  rcases h with h | h
  · simp [scraper_init, _validate_url, h]
  · by_cases h2 : (_request o).1 = some 200
    · simp [scraper_init, _validate_url, h2, h]
    · simp [scraper_init, _validate_url, h2]

/-- C4 witness: a failed fetch (no status) aborts construction with
`ValidationError`. -/
theorem init_fails_on_bad_status_or_pattern_witness :
    scraper_init .exn "https://www.rightmove.co.uk/property-for-sale/find.html?x" (0 : ℕ)
      = .error .validationError :=
  init_fails_on_bad_status_or_pattern .exn _ 0 (.inl (by decide))

/-- C8 counterexample: a 304 (Not Modified) response is not 2xx, yet
`_request` returns `(some 304, some body)` instead of the missing pair,
because `raise_for_status` only raises for 4xx/5xx. -/
theorem request_not_missing_on_304 :
    ¬ (200 ≤ 304 ∧ 304 < 300) ∧
    _request (.response ⟨304, ['x']⟩) = (some 304, some ['x']) := by
  exact ⟨by decide, rfl⟩

/-- C8 (amended): `_request` never raises to its caller; it returns
`(missing, missing)` when the GET raises a `RequestException` (network
error, timeout, ...) and when the response status is 4xx/5xx, and it
returns `(status, body)` for every other response status (2xx, but also
1xx, 3xx and ≥ 600). -/
theorem request_spec (o : HttpOutcome) :
    (o = .exn → _request o = (none, none)) ∧
    (∀ r, o = .response r →
      ((400 ≤ r.status ∧ r.status < 600) → _request o = (none, none)) ∧
      (¬ (400 ≤ r.status ∧ r.status < 600) →
        _request o = (some r.status, some r.body))) := by
  refine ⟨fun h => by rw [h]; rfl, fun r hr => ⟨fun h => ?_, fun h => ?_⟩⟩
  · rw [hr]
    simp [_request, raiseForStatus, h]
  · rw [hr]
    simp [_request, raiseForStatus, h]

/-- C8 witness: a 200 response comes back as `(some 200, some body)`, and
a timeout comes back as `(none, none)`. -/
theorem request_spec_witness :
    _request (.response ⟨200, ['a']⟩) = (some 200, some ['a']) ∧
    _request .exn = (none, none) := by
  constructor
  · exact ((request_spec (.response ⟨200, ['a']⟩)).2 ⟨200, ['a']⟩ rfl).2 (by decide)
  · exact (request_spec .exn).1 rfl

/-- C7: a row whose address field is the missing marker after positional
alignment is absent from the table `_get_page` returns, and hence from
any concatenation of per-page tables. -/
theorem missing_address_dropped {T : Type} (env : ScrapeEnv T)
    (content : Option PageExtract) (gf : Bool) (r : Listing)
    (hr : r.address = none) :
    r ∉ _get_page env content gf ∧
    ∀ pages : List (Option PageExtract),
      r ∉ (pages.map (fun c => _get_page env c gf)).flatten := by
  have haux : ∀ c : Option PageExtract, r ∉ _get_page env c gf := by
    intro c hmem
    cases c with
    | none => simp [_get_page] at hmem
    | some ex =>
        have := (List.mem_filter.mp hmem).2
        rw [hr] at this
        simp at this
  refine ⟨haux content, fun pages hmem => ?_⟩
  rcases List.mem_flatten.mp hmem with ⟨l, hl, hrl⟩
  rcases List.mem_map.mp hl with ⟨c, _, rfl⟩
  exact haux c hrl

/-- C7 witness: the all-missing row is not in the page table built from a
page whose only extracted field is one price. -/
theorem missing_address_dropped_witness :
    emptyListing ∉ _get_page env0 (some ⟨["100"], [], [], [], []⟩) true :=
  (missing_address_dropped env0 _ true emptyListing rfl).1

/-- C10: the floorplan list `_get_page` builds has exactly the length of
the resolved weblinks list whether or not enrichment runs, and all six
padded columns share the common length `page_max_length`, so the row
assembly (`pd.DataFrame(data)`) never sees a length mismatch. -/
theorem page_columns_aligned {T : Type} (env : ScrapeEnv T)
    (ex : PageExtract) (gf : Bool) :
    (_fetch_floorplans env (resolve ex.weblinks)).length
        = (resolve ex.weblinks).length ∧
    (if gf then _fetch_floorplans env (resolve ex.weblinks)
     else List.replicate (resolve ex.weblinks).length none).length
        = (resolve ex.weblinks).length ∧
    (page_columns env ex gf).price.length = page_max_length ex ∧
    (page_columns env ex gf).type.length = page_max_length ex ∧
    (page_columns env ex gf).address.length = page_max_length ex ∧
    (page_columns env ex gf).url.length = page_max_length ex ∧
    (page_columns env ex gf).agent_url.length = page_max_length ex ∧
    (page_columns env ex gf).floorplan_url.length = page_max_length ex := by
  have hmax : ex.prices.length ≤ page_max_length ex ∧
      ex.titles.length ≤ page_max_length ex ∧
      ex.addresses.length ≤ page_max_length ex ∧
      (resolve ex.weblinks).length ≤ page_max_length ex ∧
      (resolve ex.agent_links).length ≤ page_max_length ex := by
    simp only [page_max_length]
    omega
  obtain ⟨h1, h2, h3, h4, h5⟩ := hmax
  have hfp : (_fetch_floorplans env (resolve ex.weblinks)).length
      = (resolve ex.weblinks).length := by
    simp [_fetch_floorplans]
  have hpad : ∀ (l : List (Option String)) (n : ℕ), l.length ≤ n →
      (pad l n).length = n := by
    intro l n h
    simp only [pad, List.length_append, List.length_replicate]
    omega
  have hflen : (if gf then _fetch_floorplans env (resolve ex.weblinks)
      else List.replicate (resolve ex.weblinks).length
        (none : Option String)).length = (resolve ex.weblinks).length := by
    split
    · exact hfp
    · simp
  refine ⟨hfp, hflen, ?_, ?_, ?_, ?_, ?_, ?_⟩ <;> simp only [page_columns]
  · exact hpad _ _ (by simpa using h1)
  · exact hpad _ _ (by simpa using h2)
  · exact hpad _ _ (by simpa using h3)
  · exact hpad _ _ (by simpa using h4)
  · exact hpad _ _ (by simpa using h5)
  · exact hpad _ _ (by rw [hflen]; exact h4)

lemma get_floorplan_url_of_failure {T : Type} (env : ScrapeEnv T)
    (u : String) (h : per_url_failure env u) :
    _get_floorplan_url env u = none := by
  simp only [_get_floorplan_url]
  rcases h with h | h | ⟨b, hb, hfb⟩
  · rw [if_pos (Or.inl h)]
  · rw [if_pos (Or.inr h)]
  · by_cases hcond : (_request (env.outcome u)).1 ≠ some 200 ∨
        truthy (_request (env.outcome u)).2 = false
    · rw [if_pos hcond]
    · rw [if_neg hcond]
      simp [hb, hfb]

lemma get_floorplan_url_of_success {T : Type} (env : ScrapeEnv T)
    (u : String) (h : ¬ per_url_failure env u) :
    ∃ b t, (_request (env.outcome u)).2 = some b ∧
      env.fromstring b = .ok t ∧
      _get_floorplan_url env u = (env.floorplanSrcs t).head? := by
  rw [per_url_failure] at h
  push_neg at h
  obtain ⟨h1, h2, h3⟩ := h
  rcases hct : (_request (env.outcome u)).2 with _ | b
  · rw [hct] at h2
    simp [truthy] at h2
  · have hfb := h3 b hct
    rcases hfs : env.fromstring b with e | t
    · cases e
      exact absurd hfs hfb
    · refine ⟨b, t, rfl, hfs, ?_⟩
      simp only [_get_floorplan_url]
      rw [if_neg (by push_neg; exact ⟨h1, by rw [hct] at h2 ⊢; exact h2⟩)]
      simp [hct, hfs]

/-- C5: the floorplan enricher returns one entry per input URL in input
order (entry `i` is the per-URL lookup at URL `i`); a per-URL failure
(fetch exception, non-200 status, empty body, or parse error) yields the
missing marker for that entry only, and on success the entry is the first
floorplan reference of that listing's page (or missing when there is
none); the batch itself always completes. -/
theorem fetch_floorplans_spec {T : Type} (env : ScrapeEnv T)
    (weblinks : List String) :
    (_fetch_floorplans env weblinks).length = weblinks.length ∧
    (∀ i, i < weblinks.length →
      (_fetch_floorplans env weblinks).getD i none
        = _get_floorplan_url env (weblinks.getD i "") ∧
      (per_url_failure env (weblinks.getD i "") →
        (_fetch_floorplans env weblinks).getD i none = none) ∧
      (¬ per_url_failure env (weblinks.getD i "") →
        ∃ b t, (_request (env.outcome (weblinks.getD i ""))).2 = some b ∧
          env.fromstring b = .ok t ∧
          (_fetch_floorplans env weblinks).getD i none
            = (env.floorplanSrcs t).head?)) := by
  have hlen : (_fetch_floorplans env weblinks).length = weblinks.length := by
    simp [_fetch_floorplans]
  refine ⟨hlen, fun i hi => ?_⟩
  have hget : (_fetch_floorplans env weblinks).getD i none
      = _get_floorplan_url env (weblinks.getD i "") := by
    rw [List.getD_eq_getElem _ _ (by rw [hlen]; exact hi),
      List.getD_eq_getElem _ _ hi]
    simp [_fetch_floorplans]
  refine ⟨hget, fun hf => ?_, fun hs => ?_⟩
  · rw [hget]
    exact get_floorplan_url_of_failure env _ hf
  · obtain ⟨b, t, hb, ht, heq⟩ := get_floorplan_url_of_success env _ hs
    exact ⟨b, t, hb, ht, by rw [hget, heq]⟩

/-- C5 witness: with every fetch failing, a two-URL batch still returns
two entries, and the first entry is the missing marker. -/
theorem fetch_floorplans_spec_witness :
    (_fetch_floorplans env0 ["a", "b"]).length = 2 ∧
    (_fetch_floorplans env0 ["a", "b"]).getD 0 none = none := by
  have h := fetch_floorplans_spec env0 ["a", "b"]
  refine ⟨by simpa using h.1, (h.2 0 (by decide)).2.1 (Or.inl (by decide))⟩

lemma strContains_mono {u pat sub : String}
    (hsub : strContains pat sub = true) (h : strStartsWith u pat = true) :
    strContains u sub = true := by
  have h1 : sub.data <:+: pat.data := of_decide_eq_true hsub
  have h2 : pat.data <+: u.data := of_decide_eq_true h
  exact decide_eq_true (h1.trans h2.isInfix)

lemma contains_of_matching {u pat1 pat2 sub : String}
    (h : (strStartsWith u pat1 || strStartsWith u pat2) = true)
    (hp1 : strContains pat1 sub = true)
    (hp2 : strContains pat2 sub = true) :
    strContains u sub = true := by
  have h0 : strStartsWith u pat1 = true ∨ strStartsWith u pat2 = true := by
    simpa using h
  rcases h0 with h' | h'
  · exact strContains_mono hp1 h'
  · exact strContains_mono hp2 h'

lemma rent_or_sale_isOk_of_contains {u : String}
    (h : strContains u "/property-for-sale/" = true ∨
         strContains u "/new-homes-for-sale/" = true ∨
         strContains u "/property-to-rent/" = true ∨
         strContains u "/commercial-property-for-sale/" = true ∨
         strContains u "/commercial-property-to-let/" = true) :
    ∃ c, rent_or_sale u = .ok c := by
  cases hb1 : strContains u "/property-for-sale/" <;>
  cases hb2 : strContains u "/new-homes-for-sale/" <;>
  cases hb3 : strContains u "/property-to-rent/" <;>
  cases hb4 : strContains u "/commercial-property-for-sale/" <;>
  cases hb5 : strContains u "/commercial-property-to-let/" <;>
    simp_all [rent_or_sale]

/-- C6 counterexample: `uMixed` matches the commercial-property-for-sale
pattern and passes validation with status 200, but `rent_or_sale`
classifies it as "rent" (its query string contains `/property-to-rent/`,
and that substring check runs before the commercial one), not as the
claimed "sale-commercial". -/
theorem rent_or_sale_mismatch_on_valid_url :
    matchesSegment "commercial-property-for-sale" uMixed = true ∧
    _validate_url (some 200) uMixed = .ok () ∧
    rent_or_sale uMixed = .ok "rent" ∧
    rent_or_sale uMixed ≠ .ok "sale-commercial" := by
  refine ⟨by decide, by decide, by decide, fun hc => ?_⟩
  have : rent_or_sale uMixed = .ok "rent" := by decide
  rw [this] at hc
  exact absurd (Except.ok.inj hc) (by decide)

/-- C6 (amended): a URL matching one of the five validation patterns
always classifies successfully; it classifies as the matched pattern's
category provided the URL does not also contain a category substring that
`rent_or_sale` checks earlier (for the two for-sale patterns no proviso
is needed, since their substrings are checked first); and a URL
containing none of the five category substrings anywhere fails with
`ValidationError` (URLs rejected by validation can still classify, since
classification searches substrings rather than anchored prefixes). -/
theorem rent_or_sale_amended (u : String) :
    (matchesAnyPattern u = true → ∃ c, rent_or_sale u = .ok c) ∧
    (matchesSegment "property-for-sale" u = true →
      rent_or_sale u = .ok "sale") ∧
    (matchesSegment "new-homes-for-sale" u = true →
      rent_or_sale u = .ok "sale") ∧
    (matchesSegment "property-to-rent" u = true →
      strContains u "/property-for-sale/" = false →
      strContains u "/new-homes-for-sale/" = false →
      rent_or_sale u = .ok "rent") ∧
    (matchesSegment "commercial-property-for-sale" u = true →
      strContains u "/property-for-sale/" = false →
      strContains u "/new-homes-for-sale/" = false →
      strContains u "/property-to-rent/" = false →
      rent_or_sale u = .ok "sale-commercial") ∧
    (matchesSegment "commercial-property-to-let" u = true →
      strContains u "/property-for-sale/" = false →
      strContains u "/new-homes-for-sale/" = false →
      strContains u "/property-to-rent/" = false →
      strContains u "/commercial-property-for-sale/" = false →
      rent_or_sale u = .ok "rent-commercial") ∧
    (strContains u "/property-for-sale/" = false →
      strContains u "/new-homes-for-sale/" = false →
      strContains u "/property-to-rent/" = false →
      strContains u "/commercial-property-for-sale/" = false →
      strContains u "/commercial-property-to-let/" = false →
      rent_or_sale u = .error .validationError) := by
  refine ⟨?_, ?_, ?_, ?_, ?_, ?_, ?_⟩
  · intro hm
    have h0 : ∃ seg ∈ patternSegments, matchesSegment seg u = true := by
      simpa [matchesAnyPattern, List.any_eq_true] using hm
    obtain ⟨seg, hseg, hms⟩ := h0
    apply rent_or_sale_isOk_of_contains
    rcases (by simpa [patternSegments] using hseg :
        seg = "property-for-sale" ∨ seg = "property-to-rent" ∨
        seg = "new-homes-for-sale" ∨ seg = "commercial-property-for-sale" ∨
        seg = "commercial-property-to-let") with rfl | rfl | rfl | rfl | rfl
    · exact .inl (contains_of_matching hms (by decide) (by decide))
    · exact .inr (.inr (.inl (contains_of_matching hms (by decide) (by decide))))
    · exact .inr (.inl (contains_of_matching hms (by decide) (by decide)))
    · exact .inr (.inr (.inr (.inl
        (contains_of_matching hms (by decide) (by decide)))))
    · exact .inr (.inr (.inr (.inr
        (contains_of_matching hms (by decide) (by decide)))))
  · intro hm
    have h1 : strContains u "/property-for-sale/" = true :=
      contains_of_matching hm (by decide) (by decide)
    simp [rent_or_sale, h1]
  · intro hm
    have h2 : strContains u "/new-homes-for-sale/" = true :=
      contains_of_matching hm (by decide) (by decide)
    simp [rent_or_sale, h2]
  · intro hm hf1 hf2
    have h3 : strContains u "/property-to-rent/" = true :=
      contains_of_matching hm (by decide) (by decide)
    simp [rent_or_sale, hf1, hf2, h3]
  · intro hm hf1 hf2 hf3
    have h4 : strContains u "/commercial-property-for-sale/" = true :=
      contains_of_matching hm (by decide) (by decide)
    simp [rent_or_sale, hf1, hf2, hf3, h4]
  · intro hm hf1 hf2 hf3 hf4
    have h5 : strContains u "/commercial-property-to-let/" = true :=
      contains_of_matching hm (by decide) (by decide)
    simp [rent_or_sale, hf1, hf2, hf3, hf4, h5]
  · intro hf1 hf2 hf3 hf4 hf5
    simp [rent_or_sale, hf1, hf2, hf3, hf4, hf5]

/-- C6 witness: clean URLs of each of the five shapes classify as their
pattern's category, and a URL with none of the five substrings fails. -/
theorem rent_or_sale_amended_witness :
    rent_or_sale "https://www.rightmove.co.uk/property-for-sale/find.html?loc=1"
      = .ok "sale" ∧
    rent_or_sale "https://www.rightmove.co.uk/new-homes-for-sale/find.html?loc=1"
      = .ok "sale" ∧
    rent_or_sale "https://www.rightmove.co.uk/property-to-rent/find.html?loc=1"
      = .ok "rent" ∧
    rent_or_sale "https://www.rightmove.co.uk/commercial-property-for-sale/find.html?loc=1"
      = .ok "sale-commercial" ∧
    rent_or_sale "https://www.rightmove.co.uk/commercial-property-to-let/find.html?loc=1"
      = .ok "rent-commercial" ∧
    rent_or_sale "https://example.com/find.html?loc=1"
      = .error .validationError := by
  refine ⟨(rent_or_sale_amended _).2.1 (by decide),
    (rent_or_sale_amended _).2.2.1 (by decide),
    (rent_or_sale_amended _).2.2.2.1 (by decide) (by decide) (by decide),
    (rent_or_sale_amended _).2.2.2.2.1 (by decide) (by decide) (by decide)
      (by decide),
    (rent_or_sale_amended _).2.2.2.2.2.1 (by decide) (by decide) (by decide)
      (by decide) (by decide),
    (rent_or_sale_amended _).2.2.2.2.2.2 (by decide) (by decide) (by decide)
      (by decide) (by decide)⟩

/-- C9 counterexample: the empty string is a column name absent from the
table, yet `summary(by="")` does not fail with `SchemaError`: Python's
`if not by:` treats `""` as unset and substitutes the default grouping
column ("type" here, since the category is commercial), which exists. -/
theorem summary_empty_name_no_schema_error :
    "" ∉ dfType.columns ∧
    summary dfType "sale-commercial" (some "") ≠ .error .schemaError := by
  constructor
  · decide
  · have hc : strContains "sale-commercial" "commercial" = true := by decide
    have hm : "type" ∈ dfType.columns := by decide
    simp [summary, hc, hm]

/-- C9 (amended): for every NON-empty column name not present in the
result table, `summary(by=that name)` fails with `SchemaError` (the empty
string is treated as "no argument" and replaced by the default grouping
column); in particular `summary(by="nonexistent_column")` fails. -/
theorem summary_unknown_column_schema_error (df : DataFrame)
    (rentOrSale : String) (b : String) (hb : b ≠ "")
    (hmem : b ∉ df.columns) :
    summary df rentOrSale (some b) = .error .schemaError := by
  simp [summary, hb, hmem]

/-- C9 witness: `summary(by="nonexistent_column")` on the synthetic table
fails with `SchemaError`. -/
theorem summary_unknown_column_schema_error_witness :
    summary exDF "sale" (some "nonexistent_column") = .error .schemaError :=
  summary_unknown_column_schema_error exDF "sale" "nonexistent_column"
    (by decide) (by decide)

lemma summary_bedrooms_eq (df : DataFrame) (rs : String)
    (hcol : "number_bedrooms" ∈ df.columns) :
    summary df rs (some "number_bedrooms") = .ok (summaryBedrooms df) := by
  have h0 : summary df rs (some "number_bedrooms")
      = if "number_bedrooms" ∉ df.columns then .error .schemaError
        else .ok (summaryBedrooms df) := rfl
  rw [h0, if_neg (not_not_intro hcol)]

lemma toInt_intCast (k : ℤ) : Val.toInt (.num (k : ℚ)) = k := by
  simp [Val.toInt, Rat.num_intCast, Rat.den_intCast, Int.tdiv_one]

lemma cast_key_eq {k : Val} {kk : ℤ} (hk : k = .num (kk : ℚ)) :
    Val.num ((Val.toInt k : ℤ) : ℚ) = k := by
  subst hk
  rw [toInt_intCast]

lemma keyed_filter_map_snd (l : List (String → Option Val)) (k : Val)
    (hk : ∀ r ∈ l, (r "number_bedrooms").isSome = true) :
    ((l.filterMap (fun r => (r "number_bedrooms").map (fun k' => (k', r)))).filter
        (fun p => p.fst = k)).map Prod.snd
      = l.filter (fun r => r "number_bedrooms" = some k) := by
  induction l with
  | nil => rfl
  | cons r t ih =>
    have hr : (r "number_bedrooms").isSome = true := hk r (by simp)
    obtain ⟨kr, hkr⟩ := Option.isSome_iff_exists.mp hr
    have ht : ∀ rr ∈ t, (rr "number_bedrooms").isSome = true :=
      fun rr hh => hk rr (by simp [hh])
    by_cases hek : kr = k
    · subst hek
      simp [List.filterMap_cons, hkr, List.filter_cons, ih ht]
    · have hne : ¬ (r "number_bedrooms" = some k) := by
        rw [hkr]
        simpa using hek
      simp [List.filterMap_cons, hkr, List.filter_cons, hek, hne, ih ht]

lemma filterMap_price_length (l : List (String → Option Val))
    (hp : ∀ r ∈ l, (r "price").isSome = true) :
    (l.filterMap (fun r => r "price")).length = l.length := by
  induction l with
  | nil => rfl
  | cons r t ih =>
    have hr := hp r (by simp)
    obtain ⟨p, hpr⟩ := Option.isSome_iff_exists.mp hr
    simp [List.filterMap_cons, hpr, ih (fun rr hh => hp rr (by simp [hh]))]

lemma mem_bedKeyed_keys {df : DataFrame} {k : Val}
    (hprice : ∀ r ∈ df.rows, (r "price").isSome = true) :
    k ∈ (bedKeyed df).map Prod.fst ↔
      ∃ r ∈ df.rows, r "number_bedrooms" = some k := by
  rw [bedKeyed, List.filter_eq_self.mpr hprice]
  constructor
  · intro hk
    obtain ⟨p, hp, hpk⟩ := List.mem_map.mp hk
    obtain ⟨r, hr, hf⟩ := List.mem_filterMap.mp hp
    obtain ⟨kr, hkr, heq⟩ := Option.map_eq_some'.mp hf
    refine ⟨r, hr, ?_⟩
    rw [hkr]
    have hfst : p.fst = kr := by rw [← heq]
    rw [← hpk, hfst]
  · rintro ⟨r, hr, hk⟩
    exact List.mem_map.mpr ⟨(k, r),
      List.mem_filterMap.mpr ⟨r, hr, by rw [hk]; rfl⟩, rfl⟩

lemma bedGroup_correct (df : DataFrame) (k : Val)
    (hprice : ∀ r ∈ df.rows, (r "price").isSome = true)
    (hbedSome : ∀ r ∈ df.rows, (r "number_bedrooms").isSome = true) :
    (bedGroup (bedKeyed df) k).count
        = (df.rows.filter (fun r => r "number_bedrooms" = some k)).length ∧
    (bedGroup (bedKeyed df) k).price_mean
        = (((df.rows.filter (fun r => r "number_bedrooms" = some k)).filterMap
            (fun r => r "price")).map Val.toRat).sum
          / (((df.rows.filter
              (fun r => r "number_bedrooms" = some k)).length : ℚ)) := by
  have hkeyed : bedKeyed df
      = df.rows.filterMap
          (fun r => (r "number_bedrooms").map (fun k' => (k', r))) := by
    rw [bedKeyed, List.filter_eq_self.mpr hprice]
  have hgrp : ((bedKeyed df).filter (fun p => p.fst = k)).filterMap
        (fun p => p.snd "price")
      = (df.rows.filter (fun r => r "number_bedrooms" = some k)).filterMap
        (fun r => r "price") := by
    have hmapsnd := keyed_filter_map_snd df.rows k hbedSome
    rw [hkeyed]
    calc ((df.rows.filterMap
            (fun r => (r "number_bedrooms").map (fun k' => (k', r)))).filter
              (fun p => p.fst = k)).filterMap (fun p => p.snd "price")
        = (((df.rows.filterMap
            (fun r => (r "number_bedrooms").map (fun k' => (k', r)))).filter
              (fun p => p.fst = k)).map Prod.snd).filterMap
                (fun r => r "price") := by
          rw [List.filterMap_map]
          rfl
      _ = (df.rows.filter
            (fun r => r "number_bedrooms" = some k)).filterMap
              (fun r => r "price") := by rw [hmapsnd]
  have hlen : (((bedKeyed df).filter (fun p => p.fst = k)).filterMap
        (fun p => p.snd "price")).length
      = (df.rows.filter (fun r => r "number_bedrooms" = some k)).length := by
    rw [hgrp]
    exact filterMap_price_length _
      (fun r hr => hprice r (List.mem_filter.mp hr).1)
  constructor
  · simpa [bedGroup] using hlen
  · simp only [bedGroup]
    rw [hgrp, filterMap_price_length _
      (fun r hr => hprice r (List.mem_filter.mp hr).1)]

lemma mem_summaryBedrooms {df : DataFrame} {g : GroupRow} :
    g ∈ summaryBedrooms df ↔
      ∃ k, k ∈ (bedKeyed df).map Prod.fst ∧
        g = { bedGroup (bedKeyed df) k with
              key := .num ((Val.toInt (bedGroup (bedKeyed df) k).key : ℤ) : ℚ) } := by
  simp only [summaryBedrooms]
  rw [List.mem_insertionSort]
  constructor
  · intro h
    obtain ⟨g₀, hg₀, hgc⟩ := List.mem_map.mp h
    obtain ⟨k, hk, hgk⟩ := List.mem_map.mp hg₀
    refine ⟨k, List.mem_dedup.mp ((List.mem_insertionSort _).mp hk), ?_⟩
    rw [← hgc, ← hgk]
  · rintro ⟨k, hk, rfl⟩
    exact List.mem_map.mpr ⟨bedGroup (bedKeyed df) k,
      List.mem_map.mpr ⟨k,
        (List.mem_insertionSort _).mpr (List.mem_dedup.mpr hk), rfl⟩, rfl⟩

/-- C2: when every row has a known price and an integer bedroom count and
the `number_bedrooms` column exists, `summary("number_bedrooms")` returns
the group table `summaryBedrooms`, which is sorted by ascending integer
bedroom count, whose every row carries the exact count and mean price of
the rows with its bedroom key, and which has one row for every bedroom
key occurring in the table. -/
theorem summary_by_bedrooms_correct (df : DataFrame) (rentOrSale : String)
    (hcol : "number_bedrooms" ∈ df.columns)
    (hprice : ∀ r ∈ df.rows, (r "price").isSome = true)
    (hbed : ∀ r ∈ df.rows, ∃ kk : ℤ,
      r "number_bedrooms" = some (.num (kk : ℚ))) :
    summary df rentOrSale (some "number_bedrooms")
        = .ok (summaryBedrooms df) ∧
    List.Sorted (fun g₁ g₂ => g₁.key.toInt ≤ g₂.key.toInt)
      (summaryBedrooms df) ∧
    (∀ g ∈ summaryBedrooms df,
      (∃ r ∈ df.rows, r "number_bedrooms" = some g.key) ∧
      g.count = (df.rows.filter
        (fun r => r "number_bedrooms" = some g.key)).length ∧
      g.price_mean = (((df.rows.filter
          (fun r => r "number_bedrooms" = some g.key)).filterMap
            (fun r => r "price")).map Val.toRat).sum
        / ((df.rows.filter
            (fun r => r "number_bedrooms" = some g.key)).length : ℚ)) ∧
    (∀ r ∈ df.rows, ∃ g ∈ summaryBedrooms df,
      r "number_bedrooms" = some g.key) := by
  have hbedSome : ∀ r ∈ df.rows, (r "number_bedrooms").isSome = true := by
    intro r hr
    obtain ⟨kk, hkk⟩ := hbed r hr
    rw [hkk]
    rfl
  refine ⟨summary_bedrooms_eq df rentOrSale hcol, ?_, ?_, ?_⟩
  · simp only [summaryBedrooms]
    exact List.sorted_insertionSort _ _
  · intro g hg
    obtain ⟨k, hkmem, hgeq⟩ := mem_summaryBedrooms.mp hg
    obtain ⟨r, hr, hrk⟩ := (mem_bedKeyed_keys hprice).mp hkmem
    obtain ⟨kk, hkk⟩ := hbed r hr
    have hknum : k = .num (kk : ℚ) := by
      have hsome : some k = some (Val.num (kk : ℚ)) := by rw [← hrk, hkk]
      exact Option.some.inj hsome
    have hgkey : g.key = k := by
      rw [hgeq]
      show Val.num ((Val.toInt k : ℤ) : ℚ) = k
      exact cast_key_eq hknum
    have hgcount : g.count = (bedGroup (bedKeyed df) k).count := by rw [hgeq]
    have hgmean : g.price_mean = (bedGroup (bedKeyed df) k).price_mean := by
      rw [hgeq]
    obtain ⟨hcount, hmean⟩ := bedGroup_correct df k hprice hbedSome
    refine ⟨⟨r, hr, by rw [hgkey]; exact hrk⟩, ?_, ?_⟩
    · rw [hgkey, hgcount, hcount]
    · rw [hgkey, hgmean, hmean]
  · intro r hr
    obtain ⟨kk, hkk⟩ := hbed r hr
    have hkmem : (Val.num (kk : ℚ)) ∈ (bedKeyed df).map Prod.fst :=
      (mem_bedKeyed_keys hprice).mpr ⟨r, hr, hkk⟩
    refine ⟨{ bedGroup (bedKeyed df) (.num (kk : ℚ)) with
        key := .num ((Val.toInt (bedGroup (bedKeyed df)
          (.num (kk : ℚ))).key : ℤ) : ℚ) },
      mem_summaryBedrooms.mpr ⟨_, hkmem, rfl⟩, ?_⟩
    show r "number_bedrooms"
      = some (Val.num ((Val.toInt (Val.num (kk : ℚ)) : ℤ) : ℚ))
    rw [cast_key_eq rfl]
    exact hkk

/-- C2 witness: on the table of three 2-bedroom listings priced 100, 200
and 300, `summary("number_bedrooms")` succeeds and its table is exactly
the single sorted group row `{2, 3, 200}`. -/
theorem summary_by_bedrooms_correct_witness :
    summary exDF "sale" (some "number_bedrooms") = .ok (summaryBedrooms exDF) ∧
    summaryBedrooms exDF = [⟨.num 2, 3, 200⟩] ∧
    List.Sorted (fun g₁ g₂ => g₁.key.toInt ≤ g₂.key.toInt)
      (summaryBedrooms exDF) := by
  have h := summary_by_bedrooms_correct exDF "sale" (by decide)
    (by decide)
    (by
      intro r hr
      simp only [exDF, List.mem_cons, List.not_mem_nil, or_false] at hr
      rcases hr with rfl | rfl | rfl
      · exact ⟨2, by norm_num [exRow, show ¬("number_bedrooms" = "price") by decide]⟩
      · exact ⟨2, by norm_num [exRow, show ¬("number_bedrooms" = "price") by decide]⟩
      · exact ⟨2, by norm_num [exRow, show ¬("number_bedrooms" = "price") by decide]⟩)
  refine ⟨h.1, ?_, h.2.1⟩
  norm_num [summaryBedrooms, bedKeyed, bedGroup, exDF, exRow, List.filter,
    List.filterMap, List.dedup, List.pwFilter, List.insertionSort,
    List.orderedInsert, Val.toRat, Val.toInt, Val.leB]

end RightmoveScraper
